import Mathlib

/-!
Verification of the SafeSchool Edge network-admin service
(`deploy/edge/image/network-admin.py`) against its specification.

The Python source is shallowly embedded below: pure helper functions become
Lean functions on `String` / `List Char`, the stateful session and rate-limit
tables become explicit state passing over association lists, and the
filesystem / subprocess side effects of `apply_network_config` are recorded
in an explicit `ApplyEffects` structure.  Timestamps are modelled as `Int`
(the code uses `time.time()` floats; only ordering and differences matter).
-/

set_option maxRecDepth 8192

namespace NetworkAdmin

/-! ## Character classes (ASCII, as used by CPython's parsers) -/

/-- ASCII decimal digit, the semantics of CPython's `str.isascii() and str.isdigit()`
per character. -/
def isDigitA (c : Char) : Bool := '0' ≤ c && c ≤ '9'

/-- Hex digit, CPython `ipaddress` `_HEX_DIGITS`. -/
def isHexA (c : Char) : Bool :=
  isDigitA c || ('a' ≤ c && c ≤ 'f') || ('A' ≤ c && c ≤ 'F')

/-- ASCII alphanumeric, the `[a-zA-Z0-9]` character class of the hostname regex. -/
def isAlnumA (c : Char) : Bool :=
  isDigitA c || ('a' ≤ c && c ≤ 'z') || ('A' ≤ c && c ≤ 'Z')

/-- The `[a-zA-Z0-9\-]` character class of the hostname regex. -/
def hostClass (c : Char) : Bool := isAlnumA c || c == '-'

/-- Python `str.split(sep)` for a one-character separator: splits at every
occurrence, keeping empty runs. -/
def splitOnChar (sep : Char) : List Char → List (List Char)
  | [] => [[]]
  | c :: rest =>
    if c == sep then [] :: splitOnChar sep rest
    else
      match splitOnChar sep rest with
      | [] => [[c]]
      | h :: t => (c :: h) :: t

/-- `List.isSuffixOf`-based model of Python `str.endswith`. -/
def strEndsWith (s suffixStr : String) : Bool :=
  suffixStr.data.isSuffixOf s.data

/-! ## Python `int()` on strings

`int(cidr)` in `apply_network_config` accepts surrounding whitespace, an
optional sign, and decimal digits with single underscores between digits. -/

/-- Whitespace stripped by Python `int()` (ASCII subset). -/
def isPyWs (c : Char) : Bool :=
  c == ' ' || c == '\t' || c == '\n' || c == '\r' || c == '\x0b' || c == '\x0c'

/-- After the first digit: digits, with single underscores allowed between digits. -/
def digitsTail : List Char → Bool
  | [] => true
  | ['_'] => false
  | '_' :: c :: rest => isDigitA c && digitsTail rest
  | c :: rest => isDigitA c && digitsTail rest

/-- A nonempty digit run with single underscores between digits. -/
def digitsU : List Char → Bool
  | [] => false
  | c :: rest => isDigitA c && digitsTail rest

/-- Numeric value of a list of ASCII digits (underscores already removed). -/
def digitsVal (l : List Char) : Nat :=
  l.foldl (fun a c => 10 * a + (c.toNat - 48)) 0

/-- Model of Python `int(s)` for a string argument: `some n` when the call
succeeds with value `n`, `none` when it raises `ValueError`. -/
def pyInt? (s : String) : Option Int :=
  let cs := ((s.data.dropWhile isPyWs).reverse.dropWhile isPyWs).reverse
  match cs with
  | '+' :: body => if digitsU body then some (digitsVal (body.filter (fun c => c ≠ '_'))) else none
  | '-' :: body => if digitsU body then some (-(digitsVal (body.filter (fun c => c ≠ '_')) : Int)) else none
  | body => if digitsU body then some (digitsVal (body.filter (fun c => c ≠ '_'))) else none

/-! ## CPython `ipaddress` address parsing

`apply_network_config` validates with `ipaddress.ip_address` (which accepts
IPv4 *and* IPv6) and `ipaddress.ip_network(f"{ip}/{cidr}", strict=False)`.
The definitions below follow CPython's `_ip_int_from_string` /
`_parse_octet` / `_parse_hextet` validity conditions. -/

/-- CPython `IPv4Address._parse_octet`: nonempty ASCII digits, at most 3 of
them, no leading zero (unless the octet is exactly "0"), value at most 255. -/
def isOctet (l : List Char) : Bool :=
  !l.isEmpty && l.all isDigitA && l.length ≤ 3 &&
    (l == ['0'] || !(l.headD ' ' == '0')) && digitsVal l ≤ 255

/-- CPython `IPv4Address` string validity: exactly four dot-separated octets. -/
def isIPv4L (l : List Char) : Bool :=
  let parts := splitOnChar '.' l
  parts.length == 4 && parts.all isOctet

def isIPv4 (s : String) : Bool := isIPv4L s.data

/-- CPython `IPv6Address._parse_hextet`: one to four hex digits. -/
def isHextet (l : List Char) : Bool :=
  !l.isEmpty && l.length ≤ 4 && l.all isHexA

/-- CPython replaces a trailing `a.b.c.d` part by two hextets before parsing;
invalid embedded IPv4 fails the whole parse. -/
def v6ExpandLast (parts : List (List Char)) : Option (List (List Char)) :=
  match parts.getLast? with
  | none => none
  | some lastPart =>
    if lastPart.contains '.' then
      if isIPv4L lastPart then some (parts.dropLast ++ [['0'], ['0']]) else none
    else some parts

/-- CPython `IPv6Address._ip_int_from_string` validity (scope id excluded):
split on `:`, at least 3 parts, optional embedded IPv4 in the last part,
at most 9 parts, at most one empty interior part (the `::`), leading or
trailing `:` only as part of `::`, at most 7 explicit hextets around a `::`
(exactly 8 without one), every explicit part a valid hextet. -/
def isIPv6CoreL (l : List Char) : Bool :=
  let parts0 := splitOnChar ':' l
  if parts0.length < 3 then false
  else
    match v6ExpandLast parts0 with
    | none => false
    | some parts =>
      if 9 < parts.length then false
      else
        let interior := (parts.drop 1).dropLast
        let innerEmpties := (interior.filter (fun p => p.isEmpty)).length
        if 2 ≤ innerEmpties then false
        else if innerEmpties == 1 then
          let skipIdx := 1 + interior.findIdx (fun p => p.isEmpty)
          if (parts.headD [' ']).isEmpty && !(skipIdx == 1) then false
          else if (parts.getLastD [' ']).isEmpty && !(skipIdx == parts.length - 2) then false
          else
            let pHi := if (parts.headD [' ']).isEmpty then skipIdx - 1 else skipIdx
            let pLo := if (parts.getLastD [' ']).isEmpty then parts.length - skipIdx - 2
                       else parts.length - skipIdx - 1
            if 7 < pHi + pLo then false
            else (parts.take pHi).all isHextet && (parts.drop (parts.length - pLo)).all isHextet
        else
          if !(parts.length == 8) then false
          else if (parts.headD [' ']).isEmpty then false
          else if (parts.getLastD [' ']).isEmpty then false
          else parts.all isHextet

/-- CPython `IPv6Address` validity including an optional `%scope` suffix:
the scope id must be nonempty and must not itself contain `%`. -/
def isIPv6L (l : List Char) : Bool :=
  match splitOnChar '%' l with
  | [a] => isIPv6CoreL a
  | [a, sc] => !sc.isEmpty && isIPv6CoreL a
  | _ => false

def isIPv6 (s : String) : Bool := isIPv6L s.data

/-- `ipaddress.ip_address(s)` succeeds: tries IPv4, then IPv6. -/
def isPyIPAddress (s : String) : Bool := isIPv4L s.data || isIPv6L s.data

/-- CPython `_prefix_from_prefix_string`: nonempty ASCII digits. -/
def isPrefixLenDigits (l : List Char) : Bool := !l.isEmpty && l.all isDigitA

/-- `ipaddress.ip_network(f"{ip}/{cidr}", strict=False)` succeeds, for an `ip`
that contains no `/` (guaranteed here because `ip` already passed
`ip_address`): IPv4 address with a digit prefix of value at most 32, or an
IPv6 address with a digit prefix of value at most 128. -/
def pyIpNetworkOk (ip cidr : String) : Bool :=
  (isIPv4L ip.data && isPrefixLenDigits cidr.data && digitsVal cidr.data ≤ 32) ||
  (isIPv6L ip.data && isPrefixLenDigits cidr.data && digitsVal cidr.data ≤ 128)

/-! ## Hostname validation

The source checks (line 274)
`re.match(r"^[a-zA-Z0-9]([a-zA-Z0-9\-]{0,61}[a-zA-Z0-9])?$", hostname)`.
`innerRe` is the language of the pattern between the anchors; Python's `$`
also matches just before a single trailing newline, which `reHostnameMatch`
reproduces. -/

/-- Language of `[a-zA-Z0-9]([a-zA-Z0-9\-]{0,61}[a-zA-Z0-9])?`: a single
alphanumeric character, or an alphanumeric character followed by at most 61
characters of `[a-zA-Z0-9-]` and a final alphanumeric character. -/
def innerRe : List Char → Bool
  | [] => false
  | [c] => isAlnumA c
  | c :: rest =>
    isAlnumA c && decide (rest.length ≤ 62) && rest.dropLast.all hostClass &&
      isAlnumA (rest.getLastD ' ')

/-- `re.match(pattern, s)` for the hostname pattern, with Python's `$`
semantics: the match may end at the end of the string or just before a
trailing newline. -/
def reHostnameMatch (s : String) : Bool :=
  innerRe s.data || ((s.data.getLastD ' ' == '\n') && innerRe s.data.dropLast)

/-- Modelled from the spec (for comparison with `reHostnameMatch`): the
RFC-1123 label syntax as the spec words it — 1–63 characters total,
alphanumeric first and last characters, interior characters alphanumeric or
hyphen. -/
def rfc1123LabelSpecL (l : List Char) : Bool :=
  decide (1 ≤ l.length) && decide (l.length ≤ 63) && isAlnumA (l.headD ' ') &&
    isAlnumA (l.getLastD ' ') && ((l.drop 1).dropLast.all hostClass)

/-! ## Rate limiter (`check_rate_limit`, lines 50–64) -/

def RATE_LIMIT : Nat := 5
def RATE_WINDOW : Int := 60

/-- One call of `check_rate_limit` for one client key: the state is that
key's timestamp list, `now` the current time.  Returns the accept/reject
decision and the updated list. -/
def checkRateLimit (now : Int) (hits : List Int) : Bool × List Int :=
  let pruned := hits.filter (fun t => decide (now - t < RATE_WINDOW))
  if RATE_LIMIT ≤ pruned.length then (false, pruned)
  else (true, pruned ++ [now])

/-- Fold `checkRateLimit` over a list of call times, collecting the decisions. -/
def runRL : List Int → List Int → List Bool × List Int
  | [], hits => ([], hits)
  | t :: ts, hits =>
    let r := checkRateLimit t hits
    let rest := runRL ts r.2
    (r.1 :: rest.1, rest.2)

/-! ## Sessions (`create_session` / `valid_session`, lines 68–85)

The `_sessions` dict is modelled as an insertion-ordered association list;
`dictSet` replaces in place or appends, as Python dict assignment does. -/

def SESSION_TIMEOUT : Int := 3600

abbrev SessionMap := List (String × Int)

def dictGet : SessionMap → String → Option Int
  | [], _ => none
  | p :: rest, k => if p.1 = k then some p.2 else dictGet rest k

def dictSet : SessionMap → String → Int → SessionMap
  | [], k, v => [(k, v)]
  | p :: rest, k, v => if p.1 = k then (k, v) :: rest else p :: dictSet rest k v

def dictPop (m : SessionMap) (k : String) : SessionMap :=
  m.filter (fun p => p.1 ≠ k)

/-- `create_session`: records the current time under the (random) id. -/
def createSession (sid : String) (now : Int) (m : SessionMap) : SessionMap :=
  dictSet m sid now

/-- `valid_session`: absent id fails; idle longer than the timeout deletes the
entry and fails; otherwise `lastSeen` is refreshed to `now` and it succeeds. -/
def validSession (now : Int) (sid : String) (m : SessionMap) : Bool × SessionMap :=
  match dictGet m sid with
  | none => (false, m)
  | some ts =>
    if SESSION_TIMEOUT < now - ts then (false, dictPop m sid)
    else (true, dictSet m sid now)

/-! ## Netplan rendering (`apply_network_config`, lines 283–312)

The f-string template, line by line.  `ts` stands for the embedded
`datetime.now(...)` generation timestamp. -/

/-- `dns_list = [d for d in [dns1, dns2] if d]`. -/
def dnsList (dns1 dns2 : String) : List String :=
  [dns1, dns2].filter (fun d => !d.isEmpty)

/-- `", ".join(dns_list) if dns_list else "8.8.8.8, 1.1.1.1"`. -/
def dnsString (dns1 dns2 : String) : String :=
  if (dnsList dns1 dns2).isEmpty then "8.8.8.8, 1.1.1.1"
  else ", ".intercalate (dnsList dns1 dns2)

/-- The lines of the rendered netplan YAML artifact. -/
def netplanLines (dhcp : Bool) (ts iface ip cidr gateway dns1 dns2 : String) :
    List String :=
  if dhcp then
    ["# SafeSchool Edge -- Network Configuration (managed by network-admin)",
     "# Last modified: " ++ ts,
     "network:",
     "  version: 2",
     "  ethernets:",
     "    " ++ iface ++ ":",
     "      dhcp4: true",
     "      dhcp6: false"]
  else
    ["# SafeSchool Edge -- Network Configuration (managed by network-admin)",
     "# Last modified: " ++ ts,
     "network:",
     "  version: 2",
     "  ethernets:",
     "    " ++ iface ++ ":",
     "      dhcp4: false",
     "      dhcp6: false",
     "      addresses:",
     "        - " ++ ip ++ "/" ++ cidr,
     "      routes:",
     "        - to: default",
     "          via: " ++ gateway,
     "      nameservers:",
     "        addresses: [" ++ dnsString dns1 dns2 ++ "]"]

/-- The rendered artifact: every template line followed by a newline. -/
def renderNetplan (dhcp : Bool) (ts iface ip cidr gateway dns1 dns2 : String) :
    String :=
  String.join ((netplanLines dhcp ts iface ip cidr gateway dns1 dns2).map
    (fun l => l ++ "\n"))

/-! ## Validation (`apply_network_config`, lines 257–280) -/

/-- The two error classes produced by the `try` block of
`apply_network_config`: a caught `ValueError` (reported as
`"Invalid IP address: {e}"`) and the explicit CIDR range check. -/
inductive ApplyErr where
  | invalidIp
  | cidrRange
deriving DecidableEq

/-- The error strings of the source; for `invalidIp` the source appends the
exception text to this prefix. -/
def errText : ApplyErr → String
  | .invalidIp => "Invalid IP address: "
  | .cidrRange => "CIDR must be between 1 and 32"

/-- `if dns1: ipaddress.ip_address(dns1)` and the same for `dns2`. -/
def validateDns (dns1 dns2 : String) : Option ApplyErr :=
  if !dns1.isEmpty && !(isPyIPAddress dns1) then some .invalidIp
  else if !dns2.isEmpty && !(isPyIPAddress dns2) then some .invalidIp
  else none

/-- The `try` block of `apply_network_config`: when not DHCP, `ip` and
`gateway` must be accepted by `ip_address`, `int(cidr)` must succeed and lie
in [1,32], and `ip_network(f"{ip}/{cidr}", strict=False)` must succeed; in
every mode each non-empty DNS entry must be accepted by `ip_address`. -/
def validateConfig (ip cidr gateway dns1 dns2 : String) (dhcp : Bool) :
    Option ApplyErr :=
  if dhcp then validateDns dns1 dns2
  else if !(isPyIPAddress ip) then some .invalidIp
  else if !(isPyIPAddress gateway) then some .invalidIp
  else
    match pyInt? cidr with
    | none => some .invalidIp
    | some n =>
      if n < 1 ∨ 32 < n then some .cidrRange
      else if !(pyIpNetworkOk ip cidr) then some .invalidIp
      else validateDns dns1 dns2

/-! ## The apply operation (`apply_network_config`, lines 251–353)

Filesystem and subprocess side effects are recorded in `ApplyEffects`;
`listing` is the directory listing of `/etc/netplan` at the time of the
cleanup loop, `defaultIface` the result of `get_default_interface()`. -/

structure ApplyEffects where
  /-- files removed by the cleanup loop (lines 315–322) -/
  removed : List String
  /-- content written to `99-safeschool-static.yaml` (lines 325–328) -/
  wrote : Option String
  /-- `os.chmod(NETPLAN_FILE, 0o600)` performed (line 329) -/
  chmodOwnerOnly : Bool
  /-- `hostnamectl set-hostname` invoked with this name (lines 335–343) -/
  hostnameSet : Option String
  /-- delayed `netplan apply` scheduled (lines 347–350) -/
  scheduledApply : Bool
deriving DecidableEq

def noEffects : ApplyEffects := ⟨[], none, false, none, false⟩

structure ApplyOutcome where
  success : Bool
  message : String
  effects : ApplyEffects
deriving DecidableEq

/-- The cleanup loop: every `.yaml`/`.yml` file other than the managed one. -/
def cleanupRemoved (listing : List String) : List String :=
  listing.filter (fun f =>
    !(f == "99-safeschool-static.yaml") && (strEndsWith f ".yaml" || strEndsWith f ".yml"))

/-- `apply_network_config` with all OS operations succeeding.  Mirrors the
source order: validate, hostname check, interface fallback, render, cleanup,
write + chmod, optional hostname set, schedule `netplan apply`, and return
`new_ip or "dhcp"`. -/
def applyNetworkConfig (ip cidr gateway dns1 dns2 hostname : String)
    (dhcp : Bool) (iface defaultIface ts : String) (listing : List String) :
    ApplyOutcome :=
  match validateConfig ip cidr gateway dns1 dns2 dhcp with
  | some e => ⟨false, errText e, noEffects⟩
  | none =>
    if !hostname.isEmpty && !(reHostnameMatch hostname) then
      ⟨false, "Invalid hostname", noEffects⟩
    else
      let iface2 := if iface.isEmpty then defaultIface else iface
      if iface2.isEmpty then ⟨false, "No network interface found", noEffects⟩
      else
        ⟨true,
         if dhcp || ip.isEmpty then "dhcp" else ip,
         { removed := cleanupRemoved listing
           wrote := some (renderNetplan dhcp ts iface2 ip cidr gateway dns1 dns2)
           chmodOwnerOnly := true
           hostnameSet := if hostname.isEmpty then none else some hostname
           scheduledApply := true }⟩

/-! ## Observable file states during the write (lines 325–329)

`open(NETPLAN_FILE, "w")` truncates the managed file in place, `f.write`
fills it, and only then `os.chmod(NETPLAN_FILE, 0o600)` restricts the mode.
A concurrent reader of the well-known path can observe each of these states. -/

structure FileState where
  content : String
  mode : Nat
deriving DecidableEq

/-- The sequence of states of `99-safeschool-static.yaml` visible to a
concurrent reader: initial, truncated by `open(..., "w")`, rewritten with the
new content (still under the old mode), and finally chmod-ed to `0o600`. -/
def netplanWriteStates (old : FileState) (newContent : String) : List FileState :=
  [old, ⟨"", old.mode⟩, ⟨newContent, old.mode⟩, ⟨newContent, 0o600⟩]

/-! ## HTTP dispatch (`NetworkAdminHandler`, lines 684–840) -/

/-- `self.path.split("?")[0]`. -/
def stripQuery (raw : String) : String :=
  String.mk ((splitOnChar '?' raw.data).headD raw.data)

inductive GetResp where
  | page | unauthorized | network | system | services | notFound
deriving DecidableEq

/-- `do_GET` dispatch (lines 725–744). -/
def doGet (rawPath : String) (authed : Bool) : GetResp :=
  let path := stripQuery rawPath
  if path = "/" then .page
  else if !authed then .unauthorized
  else if path = "/api/network" then .network
  else if path = "/api/system" then .system
  else if path = "/api/services" then .services
  else .notFound

def getStatus : GetResp → Nat
  | .page => 200
  | .unauthorized => 401
  | .notFound => 404
  | _ => 200

inductive PostResp where
  | rateLimited | authFlow | unauthorized | networkApply | hostnameFlow | notFound
deriving DecidableEq

/-- `do_POST` dispatch (lines 746–840): rate limit first, then the
unauthenticated `/api/auth` flow, then the session gate, then the endpoints. -/
def doPost (rawPath : String) (rateOk authed : Bool) : PostResp :=
  if !rateOk then .rateLimited
  else
    let path := stripQuery rawPath
    if path = "/api/auth" then .authFlow
    else if !authed then .unauthorized
    else if path = "/api/network" then .networkApply
    else if path = "/api/hostname" then .hostnameFlow
    else .notFound

/-- Response status where it is determined by the dispatch alone. -/
def postStatus : PostResp → Option Nat
  | .rateLimited => some 429
  | .unauthorized => some 401
  | .notFound => some 404
  | _ => none

/-! ## Shared helper lemmas -/

/-- The regex body accepts exactly the RFC-1123 label syntax the spec words. -/
theorem innerRe_eq_labelSpec (l : List Char) : innerRe l = rfc1123LabelSpecL l := by
  match l with
  | [] => rfl
  | [c] => simp [innerRe, rfc1123LabelSpecL, List.getLastD]
  | c :: d :: rest =>
    have h62 : decide ((d :: rest).length ≤ 62) = decide ((c :: d :: rest).length ≤ 63) :=
      decide_eq_decide.mpr (by simp)
    have h1 : decide (1 ≤ (c :: d :: rest).length) = true := by simp
    have hlast : (c :: d :: rest).getLastD ' ' = (d :: rest).getLastD ' ' := by
      simp [List.getLastD_cons]
    simp only [innerRe, rfc1123LabelSpecL, hlast, List.headD_cons, List.drop_succ_cons,
      List.drop_zero, h1, h62, Bool.true_and, List.dropLast_cons₂]
    simp [Bool.and_assoc, Bool.and_comm, Bool.and_left_comm]

/-! ## Claim C1 -/

/-- Claim C1, counterexample: with old content `"A"` (mode `0o644`) and new
content `"B"`, the write sequence of `apply_network_config` exposes a state
(the file truncated by `open(..., "w")`) whose content is neither the
complete old nor the complete new artifact — the claimed
write-then-rename atomicity does not hold for the in-place write. -/
theorem c1_atomicity_counterexample :
    ¬ (∀ st ∈ netplanWriteStates ⟨"A", 0o644⟩ "B",
        st.content = "A" ∨ st.content = "B") := by decide

/-- Claim C1, amended: the apply operation rewrites the managed file in
place.  The final state is the complete new content with owner read/write
only permissions, but a concurrent reader can also observe the truncated
(empty) file, and the complete new content still under the old mode, because
`os.chmod(..., 0o600)` runs only after the visible write. -/
theorem c1_write_in_place (old : FileState) (newContent : String) :
    (netplanWriteStates old newContent).getLast? = some ⟨newContent, 0o600⟩ ∧
    FileState.mk "" old.mode ∈ netplanWriteStates old newContent ∧
    FileState.mk newContent old.mode ∈ netplanWriteStates old newContent := by
  refine ⟨rfl, ?_, ?_⟩ <;> simp [netplanWriteStates]

/-! ## Claim C8 -/

/-- Claim C8, counterexample: `"a\n"` contains a character (`'\n'`) that is
neither alphanumeric nor a hyphen, yet the hostname validation accepts it,
because Python's `$` anchor also matches just before a trailing newline. -/
theorem c8_hostname_counterexample :
    reHostnameMatch "a\n" = true ∧ rfc1123LabelSpecL "a\n".data = false := by decide

/-- Claim C8, amended: for every string, the hostname validation accepts it
iff it matches the RFC-1123 label syntax (1–63 characters, alphanumeric
first and last characters, interior characters alphanumeric or hyphen), or
it is such a label followed by one trailing newline. -/
theorem c8_hostname_characterization (s : String) :
    reHostnameMatch s =
      (rfc1123LabelSpecL s.data ||
        ((s.data.getLastD ' ' == '\n') && rfc1123LabelSpecL s.data.dropLast)) := by
  simp [reHostnameMatch, innerRe_eq_labelSpec]

/-! ## Claim C9 -/

/-- Claim C9, counterexample: a GET for the unrecognized path `/api/bogus`
without a valid session is answered with status 401, not 404 — the
unrecognized-path response is not independent of the session. -/
theorem c9_notfound_counterexample :
    getStatus (doGet "/api/bogus" false) = 401 ∧
    stripQuery "/api/bogus" ∉
      (["/", "/api/network", "/api/system", "/api/services"] : List String) ∧
    (401 : Nat) ≠ 404 := by decide

/-- Claim C9, amended: an unrecognized path yields 404 only once the earlier
gates pass — for GET when the request is authenticated, for POST when it is
within the rate limit and authenticated; an unauthenticated request to an
unrecognized path yields 401 instead (and a rate-limited POST yields 429). -/
theorem c9_notfound_amended (raw : String) (authed rateOk : Bool)
    (hG : stripQuery raw ∉
      (["/", "/api/network", "/api/system", "/api/services"] : List String))
    (hP : stripQuery raw ∉
      (["/api/auth", "/api/network", "/api/hostname"] : List String)) :
    (authed = true → doGet raw authed = .notFound ∧ getStatus (doGet raw authed) = 404) ∧
    (authed = false → doGet raw authed = .unauthorized ∧ getStatus (doGet raw authed) = 401) ∧
    (rateOk = true → authed = true →
      doPost raw rateOk authed = .notFound ∧ postStatus (doPost raw rateOk authed) = some 404) ∧
    (rateOk = true → authed = false → doPost raw rateOk authed = .unauthorized) ∧
    (rateOk = false → doPost raw rateOk authed = .rateLimited) := by
  simp only [List.mem_cons, List.mem_singleton, not_or] at hG hP
  obtain ⟨hg1, hg2, hg3, hg4⟩ := hG
  obtain ⟨hp1, hp2, hp3⟩ := hP
  refine ⟨?_, ?_, ?_, ?_, ?_⟩ <;> intro h <;> try intro h2
  all_goals subst_vars
  all_goals simp [doGet, doPost, getStatus, postStatus, hg1, hg2, hg3, hg4, hp1, hp2, hp3]

/-- Claim C9, witness for the amended theorem: the authenticated,
rate-limit-passing request to `/api/bogus` is answered 404 on both verbs. -/
theorem c9_notfound_witness :
    doGet "/api/bogus" true = .notFound ∧ getStatus (doGet "/api/bogus" true) = 404 ∧
    doPost "/api/bogus" true true = .notFound ∧
    postStatus (doPost "/api/bogus" true true) = some 404 := by
  have h := c9_notfound_amended "/api/bogus" true true (by decide) (by decide)
  exact ⟨(h.1 rfl).1, (h.1 rfl).2, (h.2.2.1 rfl rfl).1, (h.2.2.1 rfl rfl).2⟩

/-! ## Claim C6 -/

theorem dictGet_dictSet_self (m : SessionMap) (k : String) (v : Int) :
    dictGet (dictSet m k v) k = some v := by
  induction m with
  | nil => simp [dictSet, dictGet]
  | cons p rest ih => by_cases h : p.1 = k <;> simp [dictSet, dictGet, h, ih]

theorem dictGet_dictPop_self (m : SessionMap) (k : String) :
    dictGet (dictPop m k) k = none := by
  induction m with
  | nil => rfl
  | cons p rest ih =>
    by_cases h : p.1 = k
    · simpa [dictPop, List.filter_cons, h] using ih
    · simpa [dictPop, List.filter_cons, h, dictGet] using ih

/-- Claim C6: session validation fails and leaves the table unchanged for an
absent id; an id idle longer than the timeout is deleted and fails; an id
within the timeout succeeds with `lastSeen` refreshed to `now`; validation
succeeds immediately after `create`; and a successful validation resets the
idle window, so a later call within the timeout of the refreshed time
succeeds (sliding expiry). -/
theorem c6_sessions (m : SessionMap) (sid : String) (now ts t2 : Int) :
    (dictGet m sid = none → validSession now sid m = (false, m)) ∧
    (dictGet m sid = some ts → SESSION_TIMEOUT < now - ts →
      (validSession now sid m).1 = false ∧
      dictGet (validSession now sid m).2 sid = none) ∧
    (dictGet m sid = some ts → now - ts ≤ SESSION_TIMEOUT →
      (validSession now sid m).1 = true ∧
      dictGet (validSession now sid m).2 sid = some now) ∧
    (validSession now sid (createSession sid now m)).1 = true ∧
    ((validSession now sid m).1 = true → t2 - now ≤ SESSION_TIMEOUT →
      (validSession t2 sid (validSession now sid m).2).1 = true) := by
  refine ⟨?_, ?_, ?_, ?_, ?_⟩
  · intro h; simp [validSession, h]
  · intro h hgt
    simp [validSession, h, if_pos hgt, dictGet_dictPop_self]
  · intro h hle
    simp [validSession, h, if_neg (by omega : ¬ SESSION_TIMEOUT < now - ts),
      dictGet_dictSet_self]
  · have hc : dictGet (createSession sid now m) sid = some now :=
      dictGet_dictSet_self m sid now
    simp [validSession, hc, SESSION_TIMEOUT]
  · intro h1 h2
    cases hg : dictGet m sid with
    | none => simp [validSession, hg] at h1
    | some ts0 =>
      by_cases hgt : SESSION_TIMEOUT < now - ts0
      · simp [validSession, hg, if_pos hgt] at h1
      · have hsnd : (validSession now sid m).2 = dictSet m sid now := by
          simp [validSession, hg, if_neg hgt]
        rw [hsnd]
        simp [validSession, dictGet_dictSet_self,
          if_neg (by omega : ¬ SESSION_TIMEOUT < t2 - now)]

/-- Claim C6, witness: concrete runs of every scenario (timeout 3600). -/
theorem c6_sessions_witness :
    validSession 0 "s" [] = (false, []) ∧
    (validSession 5000 "s" [("s", 0)]).1 = false ∧
    dictGet (validSession 5000 "s" [("s", 0)]).2 "s" = none ∧
    (validSession 3600 "s" [("s", 0)]).1 = true ∧
    dictGet (validSession 3600 "s" [("s", 0)]).2 "s" = some 3600 ∧
    (validSession 7 "s" (createSession "s" 7 [])).1 = true ∧
    (validSession 7000 "s" (validSession 3600 "s" [("s", 0)]).2).1 = true := by
  refine ⟨(c6_sessions [] "s" 0 0 0).1 (by decide),
    ((c6_sessions [("s", 0)] "s" 5000 0 0).2.1 (by decide) (by decide)).1,
    ((c6_sessions [("s", 0)] "s" 5000 0 0).2.1 (by decide) (by decide)).2,
    ((c6_sessions [("s", 0)] "s" 3600 0 0).2.2.1 (by decide) (by decide)).1,
    ((c6_sessions [("s", 0)] "s" 3600 0 0).2.2.1 (by decide) (by decide)).2,
    (c6_sessions [] "s" 7 0 0).2.2.2.1,
    (c6_sessions [("s", 0)] "s" 3600 0 7000).2.2.2.2 (by decide) (by decide)⟩

/-! ## Claim C4 -/

/-- Claim C4: whenever validation fails — a `ValueError` from the address
checks, the CIDR range check, or the hostname syntax check —
`apply_network_config` returns failure and records no side effect: no file
removed, nothing written, no chmod, no hostname change, no scheduled
activation. -/
theorem c4_error_no_effects (ip cidr gateway dns1 dns2 hostname iface dflt ts : String)
    (dhcp : Bool) (listing : List String)
    (hfail : validateConfig ip cidr gateway dns1 dns2 dhcp ≠ none ∨
      (!hostname.isEmpty && !(reHostnameMatch hostname)) = true) :
    (applyNetworkConfig ip cidr gateway dns1 dns2 hostname dhcp iface dflt ts listing).success
      = false ∧
    (applyNetworkConfig ip cidr gateway dns1 dns2 hostname dhcp iface dflt ts listing).effects
      = noEffects := by
  cases hv : validateConfig ip cidr gateway dns1 dns2 dhcp with
  | none =>
    rcases hfail with hf | hf
    · exact absurd hv hf
    · simp [applyNetworkConfig, hv, hf]
  | some e => simp [applyNetworkConfig, hv]

/-- Claim C4, witness: the spec's own test case `cidr = "33"` — validation
fails (CIDR out of range) and the outcome carries no effect, in particular
nothing is written and no prior config is deleted. -/
theorem c4_error_no_effects_witness :
    validateConfig "192.168.1.50" "33" "192.168.1.1" "" "" false ≠ none ∧
    (applyNetworkConfig "192.168.1.50" "33" "192.168.1.1" "" "" "edge-01" false
      "eth0" "" "TS" ["50-cloud-init.yaml"]).success = false ∧
    (applyNetworkConfig "192.168.1.50" "33" "192.168.1.1" "" "" "edge-01" false
      "eth0" "" "TS" ["50-cloud-init.yaml"]).effects = noEffects := by
  have h := c4_error_no_effects "192.168.1.50" "33" "192.168.1.1" "" "" "edge-01"
    "eth0" "" "TS" false ["50-cloud-init.yaml"] (Or.inl (by decide))
  exact ⟨by decide, h.1, h.2⟩

/-! ## Claim C10 -/

/-- Claim C10: with `dhcp` true, `ip`, `cidr` and `gateway` are not validated
at all — for arbitrary (possibly malformed) values, a request with valid DNS
and hostname fields and a resolvable interface succeeds, returns the
sentinel `"dhcp"`, and produces an outcome that does not depend on the
supplied `ip`/`cidr`/`gateway` values; the written artifact is the DHCP
template. -/
theorem c10_dhcp_ignores_static_fields
    (ip cidr gateway ip2 cidr2 gateway2 dns1 dns2 hostname iface dflt ts : String)
    (listing : List String)
    (h1 : dns1.isEmpty = false → isPyIPAddress dns1 = true)
    (h2 : dns2.isEmpty = false → isPyIPAddress dns2 = true)
    (hh : hostname.isEmpty = false → reHostnameMatch hostname = true)
    (hi : iface.isEmpty = false) :
    (applyNetworkConfig ip cidr gateway dns1 dns2 hostname true iface dflt ts listing).success
      = true ∧
    (applyNetworkConfig ip cidr gateway dns1 dns2 hostname true iface dflt ts listing).message
      = "dhcp" ∧
    applyNetworkConfig ip cidr gateway dns1 dns2 hostname true iface dflt ts listing =
      applyNetworkConfig ip2 cidr2 gateway2 dns1 dns2 hostname true iface dflt ts listing ∧
    (applyNetworkConfig ip cidr gateway dns1 dns2 hostname true iface dflt ts listing).effects.wrote
      = some (renderNetplan true ts iface ip cidr gateway dns1 dns2) := by
  have hdns : validateDns dns1 dns2 = none := by
    have k1 : (!dns1.isEmpty && !(isPyIPAddress dns1)) = false := by
      cases e : dns1.isEmpty
      · simp [h1 e]
      · simp
    have k2 : (!dns2.isEmpty && !(isPyIPAddress dns2)) = false := by
      cases e : dns2.isEmpty
      · simp [h2 e]
      · simp
    simp [validateDns, k1, k2]
  have hhost : (!hostname.isEmpty && !(reHostnameMatch hostname)) = false := by
    cases e : hostname.isEmpty
    · simp [hh e]
    · simp
  refine ⟨?_, ?_, ?_, ?_⟩ <;>
    simp [applyNetworkConfig, validateConfig, hdns, hhost, hi, renderNetplan, netplanLines]

/-- Claim C10, witness: malformed `ip`/`cidr`/`gateway` succeed under DHCP,
return `"dhcp"`, and give the same outcome as well-formed ones. -/
theorem c10_dhcp_witness :
    (applyNetworkConfig "not-an-ip" "999" "bogus" "8.8.8.8" "" "edge-01" true
      "eth0" "" "TS" []).success = true ∧
    (applyNetworkConfig "not-an-ip" "999" "bogus" "8.8.8.8" "" "edge-01" true
      "eth0" "" "TS" []).message = "dhcp" ∧
    applyNetworkConfig "not-an-ip" "999" "bogus" "8.8.8.8" "" "edge-01" true
      "eth0" "" "TS" [] =
      applyNetworkConfig "1.2.3.4" "24" "1.2.3.1" "8.8.8.8" "" "edge-01" true
        "eth0" "" "TS" [] ∧
    isPyIPAddress "not-an-ip" = false ∧ pyInt? "999" = some 999 := by
  have h := c10_dhcp_ignores_static_fields "not-an-ip" "999" "bogus" "1.2.3.4" "24"
    "1.2.3.1" "8.8.8.8" "" "edge-01" "eth0" "" "TS" [] (by decide) (by decide)
    (by decide) (by decide)
  exact ⟨h.1, h.2.1, h.2.2.1, by decide, by decide⟩

/-! ## Claim C2 -/

theorem validateDns_none (dns1 dns2 : String) (hd : validateDns dns1 dns2 = none) :
    (dns1.isEmpty = false → isPyIPAddress dns1 = true) ∧
    (dns2.isEmpty = false → isPyIPAddress dns2 = true) := by
  refine ⟨fun e1 => ?_, fun e2 => ?_⟩
  · cases hip : isPyIPAddress dns1
    · simp [validateDns, e1, hip] at hd
    · rfl
  · cases hip : isPyIPAddress dns2
    · simp [validateDns, e2, hip] at hd
    · rfl

/-- Claim C2, counterexample: a fully IPv6 static configuration passes
validation — `ip`, `gateway` and `dns1` are not valid IPv4 addresses, yet
`ipaddress.ip_address` (which also accepts IPv6) lets them through, so IPv6
address strings are not rejected as the claim states. -/
theorem c2_ipv4_only_counterexample :
    validateConfig "::1" "24" "fe80::1" "2606:4700:4700::1111" "" false = none ∧
    isIPv4 "::1" = false ∧ isIPv4 "fe80::1" = false ∧
    isIPv4 "2606:4700:4700::1111" = false ∧ isIPv6 "::1" = true := by decide

/-- Claim C2, amended: for every non-DHCP configuration, validation succeeds
only if `ip` and `gateway` parse as valid IP addresses (IPv4 *or* IPv6), and
for every configuration each non-empty `dns1`/`dns2` parses as a valid IP
address (IPv4 or IPv6); fields that parse as neither are rejected. -/
theorem c2_requires_valid_ip (ip cidr gateway dns1 dns2 : String) (dhcp : Bool)
    (h : validateConfig ip cidr gateway dns1 dns2 dhcp = none) :
    (dhcp = false → isPyIPAddress ip = true ∧ isPyIPAddress gateway = true) ∧
    (dns1.isEmpty = false → isPyIPAddress dns1 = true) ∧
    (dns2.isEmpty = false → isPyIPAddress dns2 = true) := by
  cases dhcp with
  | true =>
    have hd := validateDns_none dns1 dns2 (by simpa [validateConfig] using h)
    exact ⟨fun e => absurd e (by simp), hd.1, hd.2⟩
  | false =>
    cases hip : isPyIPAddress ip
    · simp [validateConfig, hip] at h
    · cases hgw : isPyIPAddress gateway
      · simp [validateConfig, hip, hgw] at h
      · cases hcid : pyInt? cidr with
        | none => simp [validateConfig, hip, hgw, hcid] at h
        | some n =>
          simp only [validateConfig, hip, hgw, hcid, Bool.false_eq_true, if_false,
            Bool.not_true, Bool.false_eq_true] at h
          split_ifs at h with c1 c2
          have hd := validateDns_none dns1 dns2 h
          exact ⟨fun _ => ⟨rfl, rfl⟩, hd.1, hd.2⟩

/-- Claim C2, witness: a well-formed IPv4 static configuration passes
validation and every address field is a valid IP address. -/
theorem c2_requires_valid_ip_witness :
    validateConfig "192.168.1.50" "24" "192.168.1.1" "8.8.8.8" "" false = none ∧
    isPyIPAddress "192.168.1.50" = true ∧ isPyIPAddress "192.168.1.1" = true ∧
    isPyIPAddress "8.8.8.8" = true := by
  have h := c2_requires_valid_ip "192.168.1.50" "24" "192.168.1.1" "8.8.8.8" ""
    false (by decide)
  exact ⟨by decide, (h.1 rfl).1, (h.1 rfl).2, h.2.1 (by decide)⟩

/-! ## Claim C3 -/

/-- Claim C3, counterexample: a `cidr` that is not an integer at all
(`"abc"`) is rejected, but with the generic `"Invalid IP address: …"` error
of the caught `ValueError` from `int(cidr)`, not with the CIDR-specific
message — the claim's "including values that are not integers" part fails. -/
theorem c3_cidr_specific_counterexample :
    validateConfig "1.2.3.4" "abc" "5.6.7.8" "" "" false = some .invalidIp ∧
    pyInt? "abc" = none ∧ ApplyErr.invalidIp ≠ ApplyErr.cidrRange ∧
    errText .invalidIp = "Invalid IP address: " := by decide

/-- Claim C3, amended: when `ip` and `gateway` are valid addresses and
`int(cidr)` parses to an integer outside [1,32], validation fails with the
CIDR-specific message `"CIDR must be between 1 and 32"`; when `int(cidr)`
fails to parse, validation fails with the generic `"Invalid IP address: …"`
error instead; and for every `cidr` whose integer value is in [1,32] the
CIDR range check never fires. -/
theorem c3_cidr_error_paths (ip cidr gateway dns1 dns2 : String) (n : Int) :
    (isPyIPAddress ip = true → isPyIPAddress gateway = true → pyInt? cidr = some n →
      n < 1 ∨ 32 < n → validateConfig ip cidr gateway dns1 dns2 false = some .cidrRange) ∧
    (isPyIPAddress ip = true → isPyIPAddress gateway = true → pyInt? cidr = none →
      validateConfig ip cidr gateway dns1 dns2 false = some .invalidIp) ∧
    (pyInt? cidr = some n → 1 ≤ n → n ≤ 32 →
      validateConfig ip cidr gateway dns1 dns2 false ≠ some .cidrRange) ∧
    errText .cidrRange = "CIDR must be between 1 and 32" ∧
    errText .invalidIp = "Invalid IP address: " := by
  refine ⟨?_, ?_, ?_, rfl, rfl⟩
  · intro hip hgw hcid hout
    simp [validateConfig, hip, hgw, hcid, if_pos hout]
  · intro hip hgw hcid
    simp [validateConfig, hip, hgw, hcid]
  · intro hcid h1 h2
    cases hip : isPyIPAddress ip
    · simp [validateConfig, hip]
    · cases hgw : isPyIPAddress gateway
      · simp [validateConfig, hip, hgw]
      · simp only [validateConfig, hip, hgw, hcid, Bool.not_true, Bool.false_eq_true,
          if_false]
        rw [if_neg (by omega : ¬ (n < 1 ∨ 32 < n))]
        split_ifs
        · simp
        · unfold validateDns
          split_ifs <;> simp

/-- Claim C3, witness: `cidr = "33"` triggers the CIDR-specific error,
`cidr = "abc"` the generic one, and `cidr = "24"` never triggers the CIDR
error. -/
theorem c3_cidr_error_paths_witness :
    validateConfig "10.0.0.1" "33" "10.0.0.2" "" "" false = some .cidrRange ∧
    validateConfig "10.0.0.1" "abc" "10.0.0.2" "" "" false = some .invalidIp ∧
    validateConfig "10.0.0.1" "24" "10.0.0.2" "" "" false ≠ some .cidrRange := by
  refine ⟨(c3_cidr_error_paths "10.0.0.1" "33" "10.0.0.2" "" "" 33).1
      (by decide) (by decide) (by decide) (by decide),
    (c3_cidr_error_paths "10.0.0.1" "abc" "10.0.0.2" "" "" 0).2.1
      (by decide) (by decide) (by decide),
    (c3_cidr_error_paths "10.0.0.1" "24" "10.0.0.2" "" "" 24).2.2.1
      (by decide) (by decide) (by decide)⟩

/-! ## Claim C5 -/

theorem crl_accept (now : Int) (hits : List Int)
    (hall : ∀ t ∈ hits, now - t < RATE_WINDOW) (hlen : hits.length < RATE_LIMIT) :
    checkRateLimit now hits = (true, hits ++ [now]) := by
  have hf : hits.filter (fun t => decide (now - t < RATE_WINDOW)) = hits :=
    List.filter_eq_self.mpr (fun t ht => decide_eq_true (hall t ht))
  simp only [checkRateLimit, hf]
  rw [if_neg (by omega)]

theorem crl_reject (now : Int) (hits : List Int)
    (hall : ∀ t ∈ hits, now - t < RATE_WINDOW) (hlen : RATE_LIMIT ≤ hits.length) :
    checkRateLimit now hits = (false, hits) := by
  have hf : hits.filter (fun t => decide (now - t < RATE_WINDOW)) = hits :=
    List.filter_eq_self.mpr (fun t ht => decide_eq_true (hall t ht))
  simp only [checkRateLimit, hf]
  rw [if_pos hlen]

/-- Claim C5: `check_rate_limit` first prunes timestamps outside the trailing
window, rejects without recording when at least `RATE_LIMIT` remain, and
otherwise records `now` and accepts; once every recorded timestamp is a full
window old the call is accepted again; and for any six nondecreasing call
times spanning less than one window, the first five calls are accepted and
the sixth rejected. -/
theorem c5_rate_limiter (now : Int) (hits : List Int) (a b c d e f : Int)
    (hab : a ≤ b) (hbc : b ≤ c) (hcd : c ≤ d) (hde : d ≤ e) (hef : e ≤ f)
    (hwin : f - a < RATE_WINDOW) :
    ((checkRateLimit now hits).1 = true ↔
      (hits.filter (fun t => decide (now - t < RATE_WINDOW))).length < RATE_LIMIT) ∧
    ((checkRateLimit now hits).1 = false →
      (checkRateLimit now hits).2
        = hits.filter (fun t => decide (now - t < RATE_WINDOW))) ∧
    ((checkRateLimit now hits).1 = true →
      (checkRateLimit now hits).2
        = hits.filter (fun t => decide (now - t < RATE_WINDOW)) ++ [now]) ∧
    ((∀ t ∈ hits, RATE_WINDOW ≤ now - t) → (checkRateLimit now hits).1 = true) ∧
    (runRL [a, b, c, d, e, f] []).1 = [true, true, true, true, true, false] := by
  have hsplit :
      (checkRateLimit now hits).1 = true ↔
        (hits.filter (fun t => decide (now - t < RATE_WINDOW))).length < RATE_LIMIT := by
    by_cases hc : RATE_LIMIT ≤ (hits.filter (fun t => decide (now - t < RATE_WINDOW))).length
    · simp only [checkRateLimit]
      rw [if_pos hc]
      simpa using by omega
    · simp only [checkRateLimit]
      rw [if_neg hc]
      simpa using by omega
  refine ⟨hsplit, ?_, ?_, ?_, ?_⟩
  · intro hfalse
    by_cases hc : RATE_LIMIT ≤ (hits.filter (fun t => decide (now - t < RATE_WINDOW))).length
    · simp only [checkRateLimit]; rw [if_pos hc]
    · exact absurd (hsplit.mpr (by omega)) (by simp [hfalse])
  · intro htrue
    have hc : ¬ RATE_LIMIT ≤
        (hits.filter (fun t => decide (now - t < RATE_WINDOW))).length := by
      have := hsplit.mp htrue; omega
    simp only [checkRateLimit]; rw [if_neg hc]
  · intro hall
    have hf : hits.filter (fun t => decide (now - t < RATE_WINDOW)) = [] :=
      List.filter_eq_nil_iff.mpr (fun t ht => by
        have := hall t ht
        simp only [decide_eq_true_eq]
        omega)
    simp [checkRateLimit, hf, RATE_LIMIT]
  · have e1 : checkRateLimit a [] = (true, [a]) :=
      crl_accept a [] (by simp) (by simp [RATE_LIMIT])
    have e2 : checkRateLimit b [a] = (true, [a, b]) := by
      have h := crl_accept b [a]
        (by intro t ht; rw [List.mem_singleton] at ht; subst ht; omega)
        (by simp [RATE_LIMIT])
      simpa using h
    have e3 : checkRateLimit c [a, b] = (true, [a, b, c]) := by
      have h := crl_accept c [a, b]
        (by intro t ht; simp at ht; rcases ht with rfl | rfl <;> omega)
        (by simp [RATE_LIMIT])
      simpa using h
    have e4 : checkRateLimit d [a, b, c] = (true, [a, b, c, d]) := by
      have h := crl_accept d [a, b, c]
        (by intro t ht; simp at ht; rcases ht with rfl | rfl | rfl <;> omega)
        (by simp [RATE_LIMIT])
      simpa using h
    have e5 : checkRateLimit e [a, b, c, d] = (true, [a, b, c, d, e]) := by
      have h := crl_accept e [a, b, c, d]
        (by intro t ht; simp at ht; rcases ht with rfl | rfl | rfl | rfl <;> omega)
        (by simp [RATE_LIMIT])
      simpa using h
    have e6 : checkRateLimit f [a, b, c, d, e] = (false, [a, b, c, d, e]) := by
      exact crl_reject f [a, b, c, d, e]
        (by intro t ht; simp at ht; rcases ht with rfl | rfl | rfl | rfl | rfl <;> omega)
        (by simp [RATE_LIMIT])
    simp [runRL, e1, e2, e3, e4, e5, e6]

/-- Claim C5, witness: concrete instances — two live hits admit a third call;
a sixth call within one window of five accepted calls is rejected. -/
theorem c5_rate_limiter_witness :
    ((checkRateLimit 100 [50, 90]).1 = true ↔
      (([50, 90] : List Int).filter (fun t => decide ((100 : Int) - t < RATE_WINDOW))).length
        < RATE_LIMIT) ∧
    ((∀ t ∈ ([0, 30] : List Int), RATE_WINDOW ≤ (90 : Int) - t) →
      (checkRateLimit 90 [0, 30]).1 = true) ∧
    (runRL [0, 10, 20, 30, 40, 50] []).1 = [true, true, true, true, true, false] := by
  have h := c5_rate_limiter 100 [50, 90] 0 10 20 30 40 50 (by decide) (by decide)
    (by decide) (by decide) (by decide) (by decide)
  have h2 := c5_rate_limiter 90 [0, 30] 0 10 20 30 40 50 (by decide) (by decide)
    (by decide) (by decide) (by decide) (by decide)
  exact ⟨h.1, h2.2.2.2.1, h.2.2.2.2⟩

/-! ## Claim C7 -/

theorem isEmpty_false_of_ne (s : String) (h : s ≠ "") : s.isEmpty = false := by
  cases hb : s.isEmpty
  · rfl
  · exact absurd ((String.isEmpty_iff s).mp hb) h

/-- `dnsString` in the claim's phrasing: exactly the non-empty supplied
entries, with the two public resolvers exactly when neither is supplied. -/
theorem dnsString_eq (dns1 dns2 : String) :
    dnsString dns1 dns2 =
      if dns1 = "" ∧ dns2 = "" then "8.8.8.8, 1.1.1.1"
      else ", ".intercalate ([dns1, dns2].filter (fun d => !d.isEmpty)) := by
  have he : ("" : String).isEmpty = true := rfl
  by_cases e1 : dns1 = ""
  · by_cases e2 : dns2 = ""
    · simp [dnsString, dnsList, e1, e2, he]
    · simp [dnsString, dnsList, e1, e2, he, isEmpty_false_of_ne dns2 e2]
  · simp [dnsString, dnsList, e1, isEmpty_false_of_ne dns1 e1]

theorem tsLine_head (ts : String) :
    ("# Last modified: " ++ ts).data.head? = some '#' := rfl

theorem ifaceLine_inj (x y : String) (h : "    " ++ x ++ ":" = "    " ++ y ++ ":") :
    x = y := by
  have h2 := congrArg String.data h
  simp only [String.data_append, List.append_assoc] at h2
  exact String.ext (List.append_cancel_right (List.append_cancel_left h2))

/-- No line of the DHCP-mode template equals `lit`, given that `lit` is an
interface-style line for a name the interface is not, starts with a
non-`#` character, and differs from the fixed non-interface lines. -/
theorem notMem_dhcpLines (ts iface ip cidr gateway dns1 dns2 lit inner : String)
    (hlit : "    " ++ inner ++ ":" = lit) (hiface : iface ≠ inner)
    (hhead : lit.data.head? ≠ some '#')
    (hne : lit ∉ (["network:", "  version: 2", "  ethernets:",
      "      dhcp4: true", "      dhcp6: false"] : List String)) :
    lit ∉ netplanLines true ts iface ip cidr gateway dns1 dns2 := by
  intro hmem
  have hmem2 :
      lit ∈ ["# SafeSchool Edge -- Network Configuration (managed by network-admin)",
        "# Last modified: " ++ ts, "network:", "  version: 2", "  ethernets:",
        "    " ++ iface ++ ":", "      dhcp4: true", "      dhcp6: false"] := by
    simpa [netplanLines] using hmem
  simp only [List.mem_cons] at hmem2
  rcases hmem2 with h | h | h | h | h | h | h | h | h
  · exact hhead (by rw [h]; rfl)
  · exact hhead (by rw [h]; exact tsLine_head ts)
  · exact hne (by simp [h])
  · exact hne (by simp [h])
  · exact hne (by simp [h])
  · exact hiface (ifaceLine_inj iface inner (h.symm.trans hlit.symm))
  · exact hne (by simp [h])
  · exact hne (by simp [h])
  · simp at h

/-- Claim C7: the DHCP-mode artifact declares DHCP-for-IPv4 enabled and
DHCP-for-IPv6 disabled with no static address, route or nameserver block;
the static-mode artifact disables DHCP for both families and declares the
single address `ip/cidr`, a default route via `gateway`, and the nameserver
list of exactly the non-empty supplied DNS entries, falling back to
`8.8.8.8, 1.1.1.1` when neither is supplied.  (The hypotheses exclude
interface names that would themselves spell one of the three block keys.) -/
theorem c7_rendering (ts iface ip cidr gateway dns1 dns2 : String)
    (h1 : iface ≠ "  addresses") (h2 : iface ≠ "  routes")
    (h3 : iface ≠ "  nameservers") :
    ("      dhcp4: true" ∈ netplanLines true ts iface ip cidr gateway dns1 dns2 ∧
     "      dhcp6: false" ∈ netplanLines true ts iface ip cidr gateway dns1 dns2 ∧
     "      addresses:" ∉ netplanLines true ts iface ip cidr gateway dns1 dns2 ∧
     "      routes:" ∉ netplanLines true ts iface ip cidr gateway dns1 dns2 ∧
     "      nameservers:" ∉ netplanLines true ts iface ip cidr gateway dns1 dns2) ∧
    ("      dhcp4: false" ∈ netplanLines false ts iface ip cidr gateway dns1 dns2 ∧
     "      dhcp6: false" ∈ netplanLines false ts iface ip cidr gateway dns1 dns2 ∧
     ("        - " ++ ip ++ "/" ++ cidr)
       ∈ netplanLines false ts iface ip cidr gateway dns1 dns2 ∧
     "      routes:" ∈ netplanLines false ts iface ip cidr gateway dns1 dns2 ∧
     "        - to: default" ∈ netplanLines false ts iface ip cidr gateway dns1 dns2 ∧
     ("          via: " ++ gateway)
       ∈ netplanLines false ts iface ip cidr gateway dns1 dns2 ∧
     ("        addresses: [" ++
        (if dns1 = "" ∧ dns2 = "" then "8.8.8.8, 1.1.1.1"
         else ", ".intercalate ([dns1, dns2].filter (fun d => !d.isEmpty))) ++ "]")
       ∈ netplanLines false ts iface ip cidr gateway dns1 dns2) := by
  refine ⟨⟨?_, ?_, ?_, ?_, ?_⟩, ⟨?_, ?_, ?_, ?_, ?_, ?_, ?_⟩⟩
  · simp [netplanLines]
  · simp [netplanLines]
  · exact notMem_dhcpLines ts iface ip cidr gateway dns1 dns2
      "      addresses:" "  addresses" (by decide) h1 (by decide) (by decide)
  · exact notMem_dhcpLines ts iface ip cidr gateway dns1 dns2
      "      routes:" "  routes" (by decide) h2 (by decide) (by decide)
  · exact notMem_dhcpLines ts iface ip cidr gateway dns1 dns2
      "      nameservers:" "  nameservers" (by decide) h3 (by decide) (by decide)
  · simp [netplanLines]
  · simp [netplanLines]
  · simp [netplanLines]
  · simp [netplanLines]
  · simp [netplanLines]
  · simp [netplanLines]
  · rw [← dnsString_eq]
    simp [netplanLines]

/-- Claim C7, witness: the spec's end-to-end example (only `dns1` supplied)
and the DHCP template at concrete inputs. -/
theorem c7_rendering_witness :
    "      dhcp4: true"
      ∈ netplanLines true "T" "eth0" "192.168.1.50" "24" "192.168.1.1" "8.8.8.8" "" ∧
    "      nameservers:"
      ∉ netplanLines true "T" "eth0" "192.168.1.50" "24" "192.168.1.1" "8.8.8.8" "" ∧
    ("        - " ++ "192.168.1.50" ++ "/" ++ "24")
      ∈ netplanLines false "T" "eth0" "192.168.1.50" "24" "192.168.1.1" "8.8.8.8" "" ∧
    ("          via: " ++ "192.168.1.1")
      ∈ netplanLines false "T" "eth0" "192.168.1.50" "24" "192.168.1.1" "8.8.8.8" "" ∧
    ("        addresses: [" ++
       (if ("8.8.8.8" : String) = "" ∧ ("" : String) = "" then "8.8.8.8, 1.1.1.1"
        else ", ".intercalate ((["8.8.8.8", ""] : List String).filter (fun d => !d.isEmpty)))
       ++ "]")
      ∈ netplanLines false "T" "eth0" "192.168.1.50" "24" "192.168.1.1" "8.8.8.8" "" := by
  have h := c7_rendering "T" "eth0" "192.168.1.50" "24" "192.168.1.1" "8.8.8.8" ""
    (by decide) (by decide) (by decide)
  exact ⟨h.1.1, h.1.2.2.2.2, h.2.2.2.1, h.2.2.2.2.2.2.1, h.2.2.2.2.2.2.2⟩

end NetworkAdmin
